import Mathlib

/-! # ALL-INFO lookup form (`script.js`): validation, query building, result rendering

A shallow embedding of `script.js`.  JavaScript strings are modelled by Lean
strings (well-formed Unicode text), thrown exceptions by `Except JSError`, the
DOM nodes the script touches by the record `Dom`, and the network by a function
from the requested URL to the way the request ends.
-/

namespace AllInfo

/-! ## JavaScript values -/

/-- An exception value: the `name` and `message` of a thrown `Error` object. -/
structure JSError where
  name : String
  message : String
deriving DecidableEq, Repr

/-- A JavaScript number: `NaN`, an infinity, a zero (`0` or `-0`), or a finite
number other than zero, which is given by the decimal text `Number::toString`
prints for it. -/
inductive JSNumber where
  | nan
  | infinity (negative : Bool)
  | zero (negative : Bool)
  | nonzero (text : String)
deriving DecidableEq, Repr

/-- The text `Number::toString` prints; both zeros print as `0`. -/
def JSNumber.text : JSNumber → String
  | .nan => "NaN"
  | .infinity negative => if negative then "-Infinity" else "Infinity"
  | .zero _ => "0"
  | .nonzero text => text

/-- The conversion `ToBoolean` of a number: false for `0`, `-0` and `NaN` only. -/
def JSNumber.truthy : JSNumber → Bool
  | .nan => false
  | .zero _ => false
  | .infinity _ => true
  | .nonzero _ => true

/-- Whether a number is finite (`JSON.stringify` prints the others as `null`). -/
def JSNumber.finite : JSNumber → Bool
  | .nan => false
  | .infinity _ => false
  | .zero _ => true
  | .nonzero _ => true

/-- The values `response.json()` can resolve to, together with `undefined`.  The
list of an object holds its own enumerable properties in enumeration order (in
an object the keys are distinct; a property is read by its first occurrence). -/
inductive JSValue where
  | undefined
  | null
  | bool (b : Bool)
  | num (n : JSNumber)
  | str (s : String)
  | arr (items : List JSValue)
  | obj (props : List (String × JSValue))

/-- The test `v === undefined || v === null`. -/
def JSValue.isNullish : JSValue → Bool
  | .undefined => true
  | .null => true
  | _ => false

/-- The conversion `ToBoolean`. -/
def JSValue.truthy : JSValue → Bool
  | .undefined => false
  | .null => false
  | .bool b => b
  | .num n => n.truthy
  | .str s => !(s == "")
  | .arr _ => true
  | .obj _ => true

/-- The test `typeof v === 'object'`, which also holds of `null`. -/
def JSValue.typeofObject : JSValue → Bool
  | .null => true
  | .arr _ => true
  | .obj _ => true
  | _ => false

/-- The error `ToPrimitive` throws for an object none of whose `toString` and
`valueOf` is a function returning a primitive. -/
def notPrimitive : JSError :=
  ⟨"TypeError", "Cannot convert object to primitive value"⟩

mutual
/-- The conversion `ToString`, used by template literals and by `+=` on a string.
An array is joined with commas by `Array.prototype.join`.  An object without an
own `toString` property prints by `Object.prototype.toString`; an own `toString`
property of a parsed object is never a function, so `OrdinaryToPrimitive` skips
it, gets the object itself back from `valueOf` (or skips an own `valueOf` too)
and throws. -/
def toStr : JSValue → Except JSError String
  | .undefined => .ok "undefined"
  | .null => .ok "null"
  | .bool b => .ok (if b then "true" else "false")
  | .num n => .ok n.text
  | .str s => .ok s
  | .arr items => joinItems items
  | .obj props =>
    match props.lookup "toString" with
    | none => .ok "[object Object]"
    | some _ => .error notPrimitive
termination_by structural v => v
/-- The body of `Array.prototype.join` with the separator `,`: the items are
converted in order, a `null` or `undefined` item printing as nothing. -/
def joinItems : List JSValue → Except JSError String
  | [] => .ok ""
  | x :: rest =>
    match (if x.isNullish then Except.ok "" else toStr x) with
    | .error e => .error e
    | .ok first =>
      match rest with
      | [] => .ok first
      | _ :: _ =>
        match joinItems rest with
        | .error e => .error e
        | .ok more => .ok (first ++ "," ++ more)
termination_by structural l => l
end

/-! ## `JSON.stringify(value, null, 2)` -/

/-- The sixteen digits, in upper or lower case. -/
def hexDigit (uppercase : Bool) (n : Nat) : Char :=
  (if uppercase then "0123456789ABCDEF" else "0123456789abcdef").toList.getD n '0'

/-- The escape of one character inside a JSON string (`QuoteJSONString`). -/
def quoteChar (c : Char) : List Char :=
  if c = '"' then ['\\', '"']
  else if c = '\\' then ['\\', '\\']
  else if c.toNat = 8 then ['\\', 'b']
  else if c.toNat = 9 then ['\\', 't']
  else if c.toNat = 10 then ['\\', 'n']
  else if c.toNat = 12 then ['\\', 'f']
  else if c.toNat = 13 then ['\\', 'r']
  else if c.toNat < 32 then
    ['\\', 'u', '0', '0', hexDigit false (c.toNat / 16), hexDigit false (c.toNat % 16)]
  else [c]

/-- The abstract operation `QuoteJSONString`. -/
def quoteJSONString (s : String) : String :=
  "\"" ++ String.mk (s.toList.flatMap quoteChar) ++ "\""

/-- Join of the serialised parts with a separator. -/
def joinWith (sep : String) : List String → String
  | [] => ""
  | [x] => x
  | x :: y :: rest => x ++ sep ++ joinWith sep (y :: rest)

/-- The text of a non-empty array or object: the parts one per line at the
deeper indentation, between the given brackets. -/
def wrapParts (opening closing indent : String) (parts : List String) : String :=
  opening ++ "\n" ++ (indent ++ "  ") ++ joinWith (",\n" ++ (indent ++ "  ")) parts ++
    "\n" ++ indent ++ closing

mutual
/-- The abstract operation `SerializeJSONProperty` with a gap of two spaces at the
current indentation; `none` stands for the result `undefined`. -/
def serialize (indent : String) : JSValue → Option String
  | .undefined => none
  | .null => some "null"
  | .bool b => some (if b then "true" else "false")
  | .num n => some (if n.finite then n.text else "null")
  | .str s => some (quoteJSONString s)
  | .arr items =>
    some (match items with
      | [] => "[]"
      | _ :: _ => wrapParts "[" "]" indent (serializeItems (indent ++ "  ") items))
  | .obj props =>
    some (match serializeProps (indent ++ "  ") props with
      | [] => "\x7b\x7d"
      | p :: ps => wrapParts "\x7b" "\x7d" indent (p :: ps))
termination_by structural v => v
/-- The items of an array, an `undefined` item printing as `null`. -/
def serializeItems (indent : String) : List JSValue → List String
  | [] => []
  | x :: rest => (serialize indent x).getD "null" :: serializeItems indent rest
termination_by structural l => l
/-- The members of an object, a property whose value is `undefined` being left out. -/
def serializeProps (indent : String) : List (String × JSValue) → List String
  | [] => []
  | p :: rest => serializeProp indent p ++ serializeProps indent rest
termination_by structural l => l
/-- One member of an object. -/
def serializeProp (indent : String) : String × JSValue → List String
  | (k, v) =>
    match serialize indent v with
    | none => []
    | some text => [quoteJSONString k ++ ": " ++ text]
termination_by structural p => p
end

/-- The call `JSON.stringify(value, null, 2)`. -/
def JSON_stringify (value : JSValue) : Option String :=
  serialize "" value

/-! ## Property tables and the prototype chain -/

/-- The property names every object literal inherits from `Object.prototype`. -/
def objectPrototypeKeys : List String :=
  ["constructor", "__defineGetter__", "__defineSetter__", "hasOwnProperty",
   "__lookupGetter__", "__lookupSetter__", "isPrototypeOf", "propertyIsEnumerable",
   "toString", "valueOf", "__proto__", "toLocaleString"]

/-- The result of reading `table[key]` on an object literal: an own property, a
member inherited from `Object.prototype` (a built-in function, or the prototype
itself for `__proto__`), or `undefined`. -/
inductive Member (α : Type) where
  | own (a : α)
  | inherited (key : String)
  | missing
deriving DecidableEq, Repr

/-- The read `table[key]` of an object literal with the given own properties. -/
def getMember {α : Type} (table : List (String × α)) (key : String) : Member α :=
  match table.lookup key with
  | some a => .own a
  | none => if key ∈ objectPrototypeKeys then .inherited key else .missing

/-- The seven type tags that the three tables of the script register. -/
def registeredTypes : List String :=
  ["phone", "aadhaar", "gst", "upi", "ifsc", "pincode", "vehicle"]

/-! ## Regular expressions -/

/-- A character class: a union of inclusive ranges of characters. -/
abbrev CharClass := List (Char × Char)

/-- Membership of a character in a class. -/
def CharClass.test (k : CharClass) (c : Char) : Bool :=
  k.any fun r => decide (r.1 ≤ c) && decide (c ≤ r.2)

/-- A class repeated between `min` and `max` times (`none`: no upper bound). -/
structure Rep where
  cls : CharClass
  min : Nat
  max : Option Nat
deriving DecidableEq, Repr

/-- A regular expression of the shape `/^ r₁ r₂ … rₙ $/` without flags, each `rᵢ` a
repeated character class.  All seven patterns of the script have this shape. -/
abbrev RegExp := List Rep

/-- Matching of one repeated class followed by the rest of the pattern `k`: the
class consumes between `min` and `max` characters. -/
def matchRep (cls : CharClass) : Nat → Option Nat → (List Char → Bool) → List Char → Bool
  | min, _, k, [] => min == 0 && k []
  | min, max, k, c :: cs =>
    (min == 0 && k (c :: cs)) ||
      (!(max == some 0) && cls.test c && matchRep cls (min - 1) (max.map (· - 1)) k cs)

/-- Matching of the repeated classes in order up to the end of the input (`$`
without the `m` flag matches at the very end only). -/
def matchSeq : RegExp → List Char → Bool
  | [], cs => cs.isEmpty
  | r :: rs, cs => matchRep r.cls r.min r.max (matchSeq rs) cs

/-- The method `RegExp.prototype.test` on a string, for an anchored pattern. -/
def RegExp.test (re : RegExp) (value : String) : Bool :=
  matchSeq re value.toList

/-- The class `\d`, which without the `u` flag is `[0-9]`. -/
def digit : CharClass := [('0', '9')]

/-- The class `[A-Z]`. -/
def upper : CharClass := [('A', 'Z')]

/-- A single literal character. -/
def lit (c : Char) : CharClass := [(c, c)]

/-- A class taken exactly `n` times. -/
def exactly (cls : CharClass) (n : Nat) : Rep := ⟨cls, n, some n⟩

/-- The table `patterns` of `validateInput`. -/
def patterns : List (String × RegExp) :=
  [("phone", [exactly digit 10]),
   ("aadhaar", [exactly digit 12]),
   ("gst", [exactly [('0', '9')] 2, exactly upper 5, exactly [('0', '9')] 4, exactly upper 1,
            exactly [('1', '9'), ('A', 'Z')] 1, exactly (lit 'Z') 1,
            exactly [('0', '9'), ('A', 'Z')] 1]),
   ("upi", [⟨[('a', 'z'), ('A', 'Z'), ('0', '9'), ('.', '.'), ('-', '-'), ('_', '_')], 2, some 256⟩,
            exactly (lit '@') 1, ⟨[('a', 'z'), ('A', 'Z')], 2, none⟩]),
   ("ifsc", [exactly upper 4, exactly (lit '0') 1, exactly [('A', 'Z'), ('0', '9')] 6]),
   ("pincode", [exactly digit 6]),
   ("vehicle", [exactly upper 2, ⟨[('0', '9')], 1, some 2⟩, ⟨upper, 0, some 2⟩,
                ⟨[('0', '9')], 1, some 4⟩])]

/-- The function `validateInput(type, value)`: `patterns[type]` is read through the
prototype chain, so an inherited member is truthy and its missing `test` method
is called. -/
def validateInput (type value : String) : Except JSError Bool :=
  match getMember patterns type with
  | .own re => .ok (re.test value)
  | .inherited _ => .error ⟨"TypeError", "patterns[type].test is not a function"⟩
  | .missing => .ok false

/-! ## Query building -/

/-- The origin of the lookup service. -/
def API_BASE : String := "https://veerulookup.onrender.com"

/-- The characters `encodeURIComponent` leaves as they are: ASCII letters and
digits and the marks `- _ . ! ~ * ( )` and the apostrophe. -/
def uriUnreserved (c : Char) : Bool :=
  c.isAlphanum || c ∈ ['-', '_', '.', '!', '~', '*', '(', ')', Char.ofNat 39]

/-- The escape `%XX` of one octet. -/
def percentByte (b : UInt8) : List Char :=
  ['%', hexDigit true (b.toNat / 16), hexDigit true (b.toNat % 16)]

/-- The encoding of one character: itself when unreserved, otherwise the escapes
of the octets of its UTF-8 encoding. -/
def encodeChar (c : Char) : List Char :=
  if uriUnreserved c then [c] else (String.utf8EncodeChar c).flatMap percentByte

/-- The global function `encodeURIComponent`.  It is total on well-formed text; the
`URIError` it throws on a lone surrogate has no counterpart among Lean strings. -/
def encodeURIComponent (value : String) : String :=
  String.mk (value.toList.flatMap encodeChar)

/-- The table `endpoints` of `buildUrl`. -/
def endpoints : List (String × String) :=
  [("phone", "/search_phone?number="),
   ("aadhaar", "/search_aadhaar?aadhaar="),
   ("gst", "/search_gst?gst="),
   ("upi", "/search_upi?upi="),
   ("ifsc", "/search_ifsc?ifsc="),
   ("pincode", "/search_pincode?pincode="),
   ("vehicle", "/search_vehicle?rc=")]

/-- The text of an inherited member of `Object.prototype` inside a template
literal, as V8 prints it (the text of a built-in function is left to the engine). -/
def nativeText (key : String) : String :=
  if key = "__proto__" then "[object Object]"
  else "function " ++ (if key = "constructor" then "Object" else key) ++ "() \x7b [native code] \x7d"

/-- The text of `endpoints[type]` inside the template literal of `buildUrl`. -/
def endpointText (type : String) : String :=
  match getMember endpoints type with
  | .own e => e
  | .inherited key => nativeText key
  | .missing => "undefined"

/-- The function `buildUrl(type, value)`. -/
def buildUrl (type value : String) : String :=
  API_BASE ++ endpointText type ++ encodeURIComponent value

/-! ## The page -/

/-- The properties of the DOM nodes `typeSelect`, `inputValue`, `resultBox`,
`loading` and `submitBtn` that the script reads or writes. -/
structure Dom where
  typeSelect_value : String
  inputValue_value : String
  resultBox_innerHTML : String
  resultBox_className : String
  resultBox_display : String
  loading_display : String
  submitBtn_disabled : Bool
  submitBtn_textContent : String
deriving DecidableEq, Repr

/-- The helper `showResult(message, type)`. -/
def showResult (dom : Dom) (message type : String) : Dom :=
  { dom with
    resultBox_innerHTML := message
    resultBox_className := "result-box " ++ type
    resultBox_display := "block" }

/-- The helper `hideResult()`. -/
def hideResult (dom : Dom) : Dom :=
  { dom with
    resultBox_display := "none"
    resultBox_className := "result-box" }

/-- The helper `showLoading(show)`. -/
def showLoading (dom : Dom) (show_ : Bool) : Dom :=
  { dom with
    loading_display := if show_ then "block" else "none"
    submitBtn_disabled := show_
    submitBtn_textContent := if show_ then "Searching..." else "Submit" }

/-! ## Result rendering -/

/-- The table `fieldLabels` of `displayResult`, each schema in declaration order. -/
def fieldLabels : List (String × List (String × String)) :=
  [("phone", [("name", "Name"), ("operator", "Operator"), ("circle", "Circle")]),
   ("aadhaar", [("name", "Name"), ("address", "Address")]),
   ("gst", [("legal_name", "Legal Name"), ("address", "Address"), ("trade_name", "Trade Name")]),
   ("upi", [("name", "Name"), ("bank", "Bank"), ("ifsc", "IFSC")]),
   ("ifsc", [("bank", "Bank"), ("branch", "Branch"), ("address", "Address")]),
   ("pincode", [("post_office", "Post Office"), ("district", "District"), ("state", "State")]),
   ("vehicle", [("owner", "Owner"), ("model", "Model"), ("fuel", "Fuel"),
                ("reg_date", "Registration Date")])]

/-- The expression `Object.entries(fieldLabels[type] || {})`: an inherited member
of `Object.prototype` is truthy and has no enumerable own property. -/
def labelEntries (type : String) : List (String × String) :=
  match getMember fieldLabels type with
  | .own labels => labels
  | .inherited _ => []
  | .missing => []

/-- The read `data[key]` for a key of a schema.  Reading a property of `null` or
`undefined` throws; an object yields its own property or `undefined`; an array
or a primitive yields `undefined` (no schema key is an index, `length` or the
name of a built-in prototype member). -/
def getProp (data : JSValue) (key : String) : Except JSError JSValue :=
  match data with
  | .null =>
    .error ⟨"TypeError", "Cannot read properties of null (reading '" ++ key ++ "')"⟩
  | .undefined =>
    .error ⟨"TypeError", "Cannot read properties of undefined (reading '" ++ key ++ "')"⟩
  | .obj props => .ok ((props.lookup key).getD .undefined)
  | _ => .ok .undefined

/-- The state of `displayResult` while it runs: the variables `html` and `hasData`
and, as a record of what the loop has appended, the (label, value) pairs emitted. -/
structure Rendering where
  html : String
  hasData : Bool
  pairs : List (String × JSValue)

/-- The `for` loop of `displayResult` over the remaining entries. -/
def renderFields (data : JSValue) : List (String × String) → Rendering → Except JSError Rendering
  | [], st => .ok st
  | (key, label) :: rest, st =>
    match getProp data key with
    | .error e => .error e
    | .ok v =>
      if v.isNullish then renderFields data rest st
      else
        match toStr v with
        | .error e => .error e
        | .ok text =>
          renderFields data rest
            { html := st.html ++ ("<strong>" ++ label ++ ":</strong> " ++ text ++ "\n")
              hasData := true
              pairs := st.pairs ++ [(label, v)] }

/-- The operand of the last `html +=` of `displayResult`, as text:
`data && typeof data === 'object' ? JSON.stringify(data, null, 2) : (data || 'No data found.')`. -/
def fallbackText (data : JSValue) : Except JSError String :=
  if data.truthy && data.typeofObject then .ok ((JSON_stringify data).getD "undefined")
  else if data.truthy then toStr data
  else .ok "No data found."

/-- The opening line of every rendered result. -/
def resultHeader : String := "<strong>Result:</strong>\n\n"

/-- The body of `displayResult(data, type)` up to the call of `showResult`. -/
def renderResult (data : JSValue) (type : String) : Except JSError Rendering :=
  match renderFields data (labelEntries type) ⟨resultHeader, false, []⟩ with
  | .error e => .error e
  | .ok st =>
    if !st.hasData then
      match fallbackText data with
      | .error e => .error e
      | .ok text => .ok { st with html := st.html ++ text }
    else .ok st

/-- The function `displayResult(data, type)` on the page. -/
def displayResult (dom : Dom) (data : JSValue) (type : String) : Except JSError Dom :=
  match renderResult data type with
  | .error e => .error e
  | .ok st => .ok (showResult dom st.html "success")

/-! ## The submit handler -/

/-- The code units `String.prototype.trim` strips: white space and line
terminators. -/
def isTrimmable (c : Char) : Bool :=
  c.toNat ∈ [0x09, 0x0A, 0x0B, 0x0C, 0x0D, 0x20, 0xA0, 0x1680, 0x2028, 0x2029, 0x202F,
    0x205F, 0x3000, 0xFEFF] || (0x2000 ≤ c.toNat && c.toNat ≤ 0x200A)

/-- The method `String.prototype.trim`. -/
def trim (s : String) : String :=
  String.mk ((s.toList.dropWhile isTrimmable).reverse.dropWhile isTrimmable).reverse

/-- The method `String.prototype.includes`. -/
def includes (s sub : String) : Bool :=
  s.toList.tails.any fun t => sub.toList.isPrefixOf t

/-- What `fetch` hands back when it resolves: the `ok` flag, the status and the
end of `response.json()`. -/
structure Response where
  ok : Bool
  status : Nat
  json : Except JSError JSValue

/-- The two ways the awaited `fetch` ends; a timeout is the rejection with the
`AbortError` that `controller.abort()` causes. -/
inductive FetchOutcome where
  | rejected (error : JSError)
  | resolved (response : Response)

/-- The effects of the handler outside the page. -/
inductive Effect where
  | preventDefault
  | fetch (url : String)
  | consoleError (error : JSError)
deriving DecidableEq, Repr

/-- The message the `catch` block chooses for a caught error. -/
def failureMessage (error : JSError) : String :=
  if error.name = "AbortError" then "Request timed out. Please try again."
  else if includes error.message "Failed to fetch" then
    "Network error. Check your internet connection."
  else "Failed to fetch data. Try again later."

/-- The body of the `try` block after `fetch` has settled. -/
def tryBlock (dom : Dom) (type : String) : FetchOutcome → Except JSError Dom
  | .rejected e => .error e
  | .resolved response =>
    if !response.ok then .error ⟨"Error", "Server Error: " ++ toString response.status⟩
    else
      match response.json with
      | .error e => .error e
      | .ok data => displayResult dom data type

/-- The end of one run of the handler: the page, the effects in order, and whether
the handler returned or threw. -/
structure Run where
  dom : Dom
  trace : List Effect
  completion : Except JSError Unit

/-- The submit handler, given how the network answers each URL.  The timer set
before `fetch` shows only through the `AbortError` a timed-out request is
rejected with, so it is part of the answer of the network. -/
def onSubmit (net : String → FetchOutcome) (dom : Dom) : Run :=
  let type := dom.typeSelect_value
  let value := trim dom.inputValue_value
  if type = "" ∨ value = "" then ⟨dom, [.preventDefault], .ok ()⟩
  else
    match validateInput type value with
    | .error e => ⟨dom, [.preventDefault], .error e⟩
    | .ok false => ⟨showResult dom "Invalid input format!" "error", [.preventDefault], .ok ()⟩
    | .ok true =>
      let dom1 := hideResult (showLoading dom true)
      let url := buildUrl type value
      match tryBlock dom1 type (net url) with
      | .ok dom2 => ⟨showLoading dom2 false, [.preventDefault, .fetch url], .ok ()⟩
      | .error e =>
        ⟨showLoading (showResult dom1 (failureMessage e) "error") false,
          [.preventDefault, .fetch url, .consoleError e], .ok ()⟩

/-! ## Vocabulary of the statements -/

/-- The characters of `s` from position `start` on, at most `len` of them. -/
def slice (s : String) (start len : Nat) : List Char :=
  (s.toList.drop start).take len

/-- The format of a GST number in the words of the specification: 15 characters,
namely 2 digits, 5 uppercase letters, 4 digits, 1 uppercase letter, 1 character
that is any digit `0`-`9` or any uppercase letter, the letter `Z`, and 1 last
character that is a digit or an uppercase letter. -/
@[reducible] def gstAsSpecified (s : String) : Prop :=
  s.length = 15 ∧
    (∀ c ∈ slice s 0 2, c.isDigit = true) ∧
    (∀ c ∈ slice s 2 5, c.isUpper = true) ∧
    (∀ c ∈ slice s 7 4, c.isDigit = true) ∧
    (∀ c ∈ slice s 11 1, c.isUpper = true) ∧
    (∀ c ∈ slice s 12 1, c.isDigit = true ∨ c.isUpper = true) ∧
    (∀ c ∈ slice s 13 1, c = 'Z') ∧
    (∀ c ∈ slice s 14 1, c.isDigit = true ∨ c.isUpper = true)

/-- The format of an IFSC code in the words of the specification: 11 characters,
namely 4 uppercase letters, the digit `0`, and 6 alphanumeric characters. -/
@[reducible] def ifscAsSpecified (s : String) : Prop :=
  s.length = 11 ∧
    (∀ c ∈ slice s 0 4, c.isUpper = true) ∧
    (∀ c ∈ slice s 4 1, c = '0') ∧
    (∀ c ∈ slice s 5 6, c.isAlphanum = true)

/-- The entries of a schema whose key has a value among the own properties of a
result that is neither `undefined` nor `null`, each label paired with that
value, in the order of the schema. -/
def selectedPairs (labels : List (String × String)) (props : List (String × JSValue)) :
    List (String × JSValue) :=
  labels.filterMap fun entry =>
    match props.lookup entry.1 with
    | some v => if v.isNullish then none else some (entry.2, v)
    | none => none

/-- The lines `displayResult` appends for a sequence of pairs, one after the other,
or the error of the first value that does not convert to text. -/
def fieldLines : List (String × JSValue) → Except JSError String
  | [] => .ok ""
  | p :: ps =>
    match toStr p.2 with
    | .error e => .error e
    | .ok text =>
      match fieldLines ps with
      | .error e => .error e
      | .ok more => .ok (("<strong>" ++ p.1 ++ ":</strong> " ++ text ++ "\n") ++ more)

/-- The own properties of a value: those of an object, none for anything else. -/
def ownProps : JSValue → List (String × JSValue)
  | .obj props => props
  | _ => []

/-- The page with a type selected and a text typed in, nothing shown and nothing
under way. -/
def freshPage (type input : String) : Dom :=
  { typeSelect_value := type
    inputValue_value := input
    resultBox_innerHTML := ""
    resultBox_className := "result-box"
    resultBox_display := "none"
    loading_display := "none"
    submitBtn_disabled := false
    submitBtn_textContent := "Submit" }

/-! ## Regular expressions: repeated classes of a fixed count -/

theorem matchRep_exact (cls : CharClass) (k : List Char → Bool) :
    ∀ (n : Nat) (cs : List Char),
      matchRep cls n (some n) k cs =
        (decide (n ≤ cs.length) && (cs.take n).all cls.test && k (cs.drop n)) := by
  intro n
  induction n with
  | zero =>
    intro cs
    cases cs <;> simp [matchRep]
  | succ n ih =>
    intro cs
    cases cs with
    | nil => simp [matchRep]
    | cons c cs =>
      simp only [matchRep, ih, List.length_cons, List.take_succ_cons, List.all_cons,
        List.drop_succ_cons, Nat.add_sub_cancel, Option.map_some']
      simp [Bool.and_assoc]
      exact Bool.and_left_comm _ _ _

theorem matchSeq_exactly_cons (cls : CharClass) (n : Nat) (rs : RegExp) (cs : List Char) :
    matchSeq (exactly cls n :: rs) cs =
      (decide (n ≤ cs.length) && (cs.take n).all cls.test && matchSeq rs (cs.drop n)) := by
  simp only [matchSeq, exactly, matchRep_exact]

theorem matchSeq_exactly_cons_iff (cls : CharClass) (n : Nat) (rs : RegExp) (cs : List Char) :
    matchSeq (exactly cls n :: rs) cs = true ↔
      n ≤ cs.length ∧ (∀ c ∈ cs.take n, cls.test c = true) ∧
        matchSeq rs (cs.drop n) = true := by
  rw [matchSeq_exactly_cons]
  simp [and_assoc]

theorem matchSeq_nil_iff (cs : List Char) : matchSeq [] cs = true ↔ cs.length = 0 := by
  cases cs <;> simp [matchSeq]

theorem digit_test (c : Char) : CharClass.test [('0', '9')] c = c.isDigit := by
  simp [CharClass.test, Char.isDigit, Char.le_def]

theorem upper_test (c : Char) : upper.test c = c.isUpper := by
  simp [upper, CharClass.test, Char.isUpper, Char.le_def]

theorem class19AZ_test (c : Char) :
    CharClass.test [('1', '9'), ('A', 'Z')] c = (decide ('1' ≤ c ∧ c ≤ '9') || c.isUpper) := by
  simp [CharClass.test, Char.isUpper, Char.le_def]

theorem class09AZ_test (c : Char) :
    CharClass.test [('0', '9'), ('A', 'Z')] c = (c.isDigit || c.isUpper) := by
  simp [CharClass.test, Char.isUpper, Char.isDigit, Char.le_def]

theorem classAZ09_test (c : Char) :
    CharClass.test [('A', 'Z'), ('0', '9')] c = (c.isUpper || c.isDigit) := by
  simp [CharClass.test, Char.isUpper, Char.isDigit, Char.le_def]

theorem lit_test (a c : Char) : (lit a).test c = decide (c = a) := by
  rw [Bool.eq_iff_iff]
  simp only [lit, CharClass.test, List.any_cons, List.any_nil, Bool.or_false, Bool.and_eq_true,
    decide_eq_true_iff]
  constructor
  · rintro ⟨h1, h2⟩
    exact le_antisymm h2 h1
  · rintro rfl
    exact ⟨le_refl _, le_refl _⟩

/-- A pattern that is one class taken exactly `n` times accepts the strings of
exactly `n` characters of the class. -/
theorem test_single_exact (cls : CharClass) (n : Nat) (s : String) :
    RegExp.test [exactly cls n] s =
      decide (s.length = n ∧ ∀ c ∈ s.toList, cls.test c = true) := by
  have hl : s.length = s.toList.length := rfl
  rw [Bool.eq_iff_iff, decide_eq_true_iff, RegExp.test, matchSeq_exactly_cons_iff,
    matchSeq_nil_iff, List.length_drop, hl]
  constructor
  · rintro ⟨h1, h2, h3⟩
    have h : s.toList.length = n := by omega
    refine ⟨h, ?_⟩
    rw [← h, List.take_length] at h2
    exact h2
  · rintro ⟨h, h2⟩
    refine ⟨by omega, ?_, by omega⟩
    rw [← h, List.take_length]
    exact h2

/-! ## Validation -/

/-- C5. The patterns of `phone`, `aadhaar` and `pincode` accept exactly the strings
of exactly 10, 12 and 6 decimal digits `0`-`9`; in particular `phone` accepts
`9876543210` and rejects `987654321`, `98765432100`, a padded, a newline-ended
and a non-ASCII-digit input, and `pincode` accepts `110001` and rejects `11000`. -/
theorem validateInput_digit_types :
    (∀ s : String, validateInput "phone" s =
      .ok (decide (s.length = 10 ∧ ∀ c ∈ s.toList, c.isDigit = true))) ∧
    (∀ s : String, validateInput "aadhaar" s =
      .ok (decide (s.length = 12 ∧ ∀ c ∈ s.toList, c.isDigit = true))) ∧
    (∀ s : String, validateInput "pincode" s =
      .ok (decide (s.length = 6 ∧ ∀ c ∈ s.toList, c.isDigit = true))) ∧
    validateInput "phone" "9876543210" = .ok true ∧
    validateInput "phone" "987654321" = .ok false ∧
    validateInput "phone" "98765432100" = .ok false ∧
    validateInput "phone" " 9876543210" = .ok false ∧
    validateInput "phone" "9876543210\n" = .ok false ∧
    validateInput "phone" "987654321٠" = .ok false ∧
    validateInput "pincode" "110001" = .ok true ∧
    validateInput "pincode" "11000" = .ok false := by
  have hp : getMember patterns "phone" = .own [exactly digit 10] := rfl
  have ha : getMember patterns "aadhaar" = .own [exactly digit 12] := rfl
  have hc : getMember patterns "pincode" = .own [exactly digit 6] := rfl
  refine ⟨?_, ?_, ?_, rfl, rfl, rfl, rfl, rfl, rfl, rfl, rfl⟩
  · intro s
    simp only [validateInput, hp, test_single_exact, digit, digit_test]
  · intro s
    simp only [validateInput, ha, test_single_exact, digit, digit_test]
  · intro s
    simp only [validateInput, hc, test_single_exact, digit, digit_test]

/-- C4, the claim refuted: `22AAAAA0000A0Z5` has the format the specification words
(its thirteenth character `0` is a digit), and `validateInput` rejects it. -/
theorem gst_zero_entity_rejected :
    gstAsSpecified "22AAAAA0000A0Z5" ∧ validateInput "gst" "22AAAAA0000A0Z5" = .ok false :=
  ⟨by decide, rfl⟩

/-- C4, amended. The pattern of `gst` accepts exactly the strings of 15 characters
made of 2 digits, 5 uppercase letters, 4 digits, 1 uppercase letter, 1 character
that is a digit `1`-`9` or an uppercase letter, the letter `Z`, and 1 last
character that is a digit or an uppercase letter. -/
theorem validateInput_gst (s : String) :
    validateInput "gst" s = .ok (decide (s.length = 15 ∧
      (∀ c ∈ slice s 0 2, c.isDigit = true) ∧
      (∀ c ∈ slice s 2 5, c.isUpper = true) ∧
      (∀ c ∈ slice s 7 4, c.isDigit = true) ∧
      (∀ c ∈ slice s 11 1, c.isUpper = true) ∧
      (∀ c ∈ slice s 12 1, ('1' ≤ c ∧ c ≤ '9') ∨ c.isUpper = true) ∧
      (∀ c ∈ slice s 13 1, c = 'Z') ∧
      (∀ c ∈ slice s 14 1, c.isDigit = true ∨ c.isUpper = true))) := by
  have h : getMember patterns "gst" =
      .own [exactly [('0', '9')] 2, exactly upper 5, exactly [('0', '9')] 4, exactly upper 1,
        exactly [('1', '9'), ('A', 'Z')] 1, exactly (lit 'Z') 1,
        exactly [('0', '9'), ('A', 'Z')] 1] := rfl
  simp only [validateInput, h, RegExp.test]
  congr 1
  rw [Bool.eq_iff_iff, decide_eq_true_iff]
  simp only [matchSeq_exactly_cons_iff, matchSeq_nil_iff, List.drop_drop, List.length_drop,
    slice, List.drop_zero]
  have hl : s.length = s.toList.length := rfl
  simp only [digit_test, upper_test, class19AZ_test, class09AZ_test, lit_test, Bool.or_eq_true,
    decide_eq_true_iff, Nat.reduceAdd, hl]
  constructor
  · rintro ⟨h1, a1, h2, a2, h3, a3, h4, a4, h5, a5, h6, a6, h7, a7, h8⟩
    exact ⟨by omega, a1, a2, a3, a4, a5, a6, a7⟩
  · rintro ⟨h, a1, a2, a3, a4, a5, a6, a7⟩
    exact ⟨by omega, a1, by omega, a2, by omega, a3, by omega, a4, by omega, a5, by omega, a6,
      by omega, a7, by omega⟩

/-- C6, the claim refuted: `SBIN0abcdef` is 4 uppercase letters, the digit `0` and 6
alphanumeric characters, and `validateInput` rejects it. -/
theorem ifsc_lowercase_rejected :
    ifscAsSpecified "SBIN0abcdef" ∧ validateInput "ifsc" "SBIN0abcdef" = .ok false :=
  ⟨by decide, rfl⟩

/-- C6, amended. The pattern of `ifsc` accepts exactly the strings of 11 characters
made of 4 uppercase letters `A`-`Z`, the digit `0`, and 6 characters each an
uppercase letter or a digit; `SBIN0001234` is accepted and `SBINO001234`, with
the letter `O` in fifth place, is rejected. -/
theorem validateInput_ifsc :
    (∀ s : String, validateInput "ifsc" s = .ok (decide (s.length = 11 ∧
      (∀ c ∈ slice s 0 4, c.isUpper = true) ∧
      (∀ c ∈ slice s 4 1, c = '0') ∧
      (∀ c ∈ slice s 5 6, c.isUpper = true ∨ c.isDigit = true)))) ∧
    validateInput "ifsc" "SBIN0001234" = .ok true ∧
    validateInput "ifsc" "SBINO001234" = .ok false := by
  refine ⟨?_, rfl, rfl⟩
  intro s
  have h : getMember patterns "ifsc" =
      .own [exactly upper 4, exactly (lit '0') 1, exactly [('A', 'Z'), ('0', '9')] 6] := rfl
  simp only [validateInput, h, RegExp.test]
  congr 1
  rw [Bool.eq_iff_iff, decide_eq_true_iff]
  simp only [matchSeq_exactly_cons_iff, matchSeq_nil_iff, List.drop_drop, List.length_drop,
    slice, List.drop_zero]
  have hl : s.length = s.toList.length := rfl
  simp only [upper_test, classAZ09_test, lit_test, Bool.or_eq_true, decide_eq_true_iff,
    Nat.reduceAdd, hl]
  constructor
  · rintro ⟨h1, a1, h2, a2, h3, a3, h4⟩
    exact ⟨by omega, a1, a2, a3⟩
  · rintro ⟨h, a1, a2, a3⟩
    exact ⟨by omega, a1, by omega, a2, by omega, a3, by omega⟩

theorem lookup_mem {β : Type} (k : String) (v : β) :
    ∀ l : List (String × β), l.lookup k = some v → (k, v) ∈ l := by
  intro l
  induction l with
  | nil => simp [List.lookup]
  | cons p l ih =>
    obtain ⟨a, b⟩ := p
    intro h
    by_cases hk : k = a
    · subst hk
      simp [List.lookup] at h
      simp [h]
    · have hb : (k == a) = false := by simpa using hk
      simp only [List.lookup, hb] at h
      exact List.mem_cons_of_mem _ (ih h)

/-- A type tag that is neither registered nor the name of a member of
`Object.prototype` fails validation without raising. -/
theorem validateInput_unregistered (type value : String) (h1 : type ∉ registeredTypes)
    (h2 : type ∉ objectPrototypeKeys) : validateInput type value = .ok false := by
  cases hl : patterns.lookup type with
  | none => simp [validateInput, getMember, hl, h2]
  | some re =>
    exfalso
    have hm := lookup_mem type re patterns hl
    apply h1
    simp only [patterns, List.mem_cons, Prod.mk.injEq, List.mem_nil_iff, or_false] at hm
    simp only [registeredTypes, List.mem_cons, List.mem_nil_iff, or_false]
    rcases hm with h | h | h | h | h | h | h <;> simp [h.1]

/-- C3, at the failing inputs: for the tags `constructor`, `toString` and `__proto__`,
which the table `patterns` inherits, `validateInput` raises a `TypeError` instead
of returning `false`, whatever the value. -/
theorem validateInput_inherited_raises (s : String) :
    validateInput "constructor" s =
      .error ⟨"TypeError", "patterns[type].test is not a function"⟩ ∧
    validateInput "toString" s =
      .error ⟨"TypeError", "patterns[type].test is not a function"⟩ ∧
    validateInput "__proto__" s =
      .error ⟨"TypeError", "patterns[type].test is not a function"⟩ :=
  ⟨rfl, rfl, rfl⟩

/-! ## Query building -/

theorem hexDigit_upper_safe (n : Nat) : uriUnreserved (hexDigit true n) = true := by
  unfold hexDigit
  by_cases h : n < 16
  · interval_cases n <;> rfl
  · have : "0123456789ABCDEF".toList.getD n '0' = '0' := by
      apply List.getD_eq_default
      simp at h ⊢
      exact h
    simp only [if_true, this]
    rfl

theorem encodeChar_safe (c x : Char) (hx : x ∈ encodeChar c) :
    uriUnreserved x = true ∨ x = '%' := by
  unfold encodeChar at hx
  split at hx
  · simp at hx
    subst hx
    left; assumption
  · simp only [List.mem_flatMap, percentByte, List.mem_cons, List.mem_singleton] at hx
    obtain ⟨b, _, hb⟩ := hx
    simp at hb
    rcases hb with rfl | rfl | rfl
    · right; rfl
    · left; exact hexDigit_upper_safe _
    · left; exact hexDigit_upper_safe _

theorem encodeURIComponent_safe (v : String) (x : Char) (hx : x ∈ (encodeURIComponent v).toList) :
    uriUnreserved x = true ∨ x = '%' := by
  simp only [encodeURIComponent, String.toList, List.mem_flatMap] at hx
  obtain ⟨c, _, hc⟩ := hx
  exact encodeChar_safe c x hc

theorem encodeURIComponent_append (a b : String) :
    encodeURIComponent (a ++ b) = encodeURIComponent a ++ encodeURIComponent b := by
  apply String.ext
  simp [encodeURIComponent, String.toList]

/-- C7. For each registered type the URL is `API_BASE`, the path of the type, `?`,
the parameter name of the type, `=` and the percent-encoding of the value; the
encoding holds only unreserved characters and `%` escapes, so no raw space (or
`@`, `&`, `=`, `#`) survives, and a space becomes `%20`; the URL of
`('upi', 'a b@oksbi')` is spelled out. -/
theorem buildUrl_spec :
    (∀ v, buildUrl "phone" v =
      API_BASE ++ "/search_phone" ++ "?" ++ "number" ++ "=" ++ encodeURIComponent v) ∧
    (∀ v, buildUrl "aadhaar" v =
      API_BASE ++ "/search_aadhaar" ++ "?" ++ "aadhaar" ++ "=" ++ encodeURIComponent v) ∧
    (∀ v, buildUrl "gst" v =
      API_BASE ++ "/search_gst" ++ "?" ++ "gst" ++ "=" ++ encodeURIComponent v) ∧
    (∀ v, buildUrl "upi" v =
      API_BASE ++ "/search_upi" ++ "?" ++ "upi" ++ "=" ++ encodeURIComponent v) ∧
    (∀ v, buildUrl "ifsc" v =
      API_BASE ++ "/search_ifsc" ++ "?" ++ "ifsc" ++ "=" ++ encodeURIComponent v) ∧
    (∀ v, buildUrl "pincode" v =
      API_BASE ++ "/search_pincode" ++ "?" ++ "pincode" ++ "=" ++ encodeURIComponent v) ∧
    (∀ v, buildUrl "vehicle" v =
      API_BASE ++ "/search_vehicle" ++ "?" ++ "rc" ++ "=" ++ encodeURIComponent v) ∧
    (∀ v, ∀ c ∈ (encodeURIComponent v).toList, uriUnreserved c = true ∨ c = '%') ∧
    (∀ v, ∀ c ∈ (encodeURIComponent v).toList, c ≠ ' ') ∧
    (∀ a b, encodeURIComponent (a ++ " " ++ b) =
      encodeURIComponent a ++ "%20" ++ encodeURIComponent b) ∧
    buildUrl "upi" "a b@oksbi" =
      "https://veerulookup.onrender.com" ++ "/search_upi" ++ "?" ++ "upi" ++ "=" ++
        "a%20b%40oksbi" := by
  refine ⟨?_, ?_, ?_, ?_, ?_, ?_, ?_, ?_, ?_, ?_, rfl⟩
  · intro v
    simp only [String.append_assoc]
    rfl
  · intro v
    simp only [String.append_assoc]
    rfl
  · intro v
    simp only [String.append_assoc]
    rfl
  · intro v
    simp only [String.append_assoc]
    rfl
  · intro v
    simp only [String.append_assoc]
    rfl
  · intro v
    simp only [String.append_assoc]
    rfl
  · intro v
    simp only [String.append_assoc]
    rfl
  · intro v c hc
    exact encodeURIComponent_safe v c hc
  · intro v c hc h
    subst h
    rcases encodeURIComponent_safe v _ hc with h | h
    · exact absurd h (by decide)
    · exact absurd h (by decide)
  · intro a b
    rw [encodeURIComponent_append, encodeURIComponent_append]
    rfl

/-! ## Result rendering -/

theorem getProp_of_not_nullish (data : JSValue) (key : String) (h : data.isNullish = false) :
    getProp data key = .ok (((ownProps data).lookup key).getD .undefined) := by
  cases data <;> simp_all [JSValue.isNullish, getProp, ownProps]

/-- The loop of `displayResult` on a result other than `null` and `undefined`: it
appends the lines of the selected pairs, or stops at the first selected value
that does not convert to text. -/
theorem renderFields_of_not_nullish (data : JSValue) (h : data.isNullish = false) :
    ∀ (labels : List (String × String)) (st : Rendering),
      renderFields data labels st =
        match fieldLines (selectedPairs labels (ownProps data)) with
        | .error e => .error e
        | .ok lines =>
          .ok ⟨st.html ++ lines,
               st.hasData || !(selectedPairs labels (ownProps data)).isEmpty,
               st.pairs ++ selectedPairs labels (ownProps data)⟩ := by
  intro labels
  induction labels with
  | nil =>
    intro st
    simp [renderFields, selectedPairs, fieldLines]
  | cons entry rest ih =>
    intro st
    obtain ⟨key, label⟩ := entry
    simp only [renderFields, getProp_of_not_nullish data key h]
    cases hl : (ownProps data).lookup key with
    | none =>
      simp [JSValue.isNullish, ih, selectedPairs, hl]
    | some v =>
      by_cases hv : v.isNullish = true
      · simp [hv, ih, selectedPairs, hl]
      · have hsel : selectedPairs ((key, label) :: rest) (ownProps data) =
            (label, v) :: selectedPairs rest (ownProps data) := by
          simp [selectedPairs, hl, hv]
        rw [hsel]
        simp only [Option.getD_some, hv, if_false, fieldLines]
        cases hc : toStr v with
        | error e => simp
        | ok text =>
          simp only [ih]
          cases hr : fieldLines (selectedPairs rest (ownProps data)) with
          | error e => simp
          | ok more => simp [String.append_assoc]

theorem fallbackText_ok (data : JSValue) : ∃ text, fallbackText data = .ok text := by
  cases data <;> simp [fallbackText, JSValue.truthy, JSValue.typeofObject, toStr]
  all_goals split <;> simp


theorem labelEntries_of_lookup (t : String) (labels : List (String × String))
    (h : fieldLabels.lookup t = some labels) : labelEntries t = labels := by
  simp [labelEntries, getMember, h]

/-- A result other than `null` and `undefined` in which no schema field matches is
rendered by the fallback, without raising. -/
theorem renderResult_of_no_match (data : JSValue) (t : String) (h : data.isNullish = false)
    (hs : selectedPairs (labelEntries t) (ownProps data) = []) :
    ∃ text, fallbackText data = .ok text ∧
      renderResult data t = .ok ⟨resultHeader ++ text, false, []⟩ := by
  obtain ⟨text, ht⟩ := fallbackText_ok data
  refine ⟨text, ht, ?_⟩
  simp [renderResult, renderFields_of_not_nullish data h, hs, fieldLines, ht]

/-- A result other than `null` and `undefined` in which some schema field matches
is rendered as the lines of the selected pairs when these convert to text. -/
theorem renderResult_of_match (data : JSValue) (t : String) (h : data.isNullish = false)
    (lines : String) (hne : selectedPairs (labelEntries t) (ownProps data) ≠ [])
    (hl : fieldLines (selectedPairs (labelEntries t) (ownProps data)) = .ok lines) :
    renderResult data t =
      .ok ⟨resultHeader ++ lines, true, selectedPairs (labelEntries t) (ownProps data)⟩ := by
  simp only [renderResult, renderFields_of_not_nullish data h, hl]
  cases hs : selectedPairs (labelEntries t) (ownProps data) with
  | nil => exact absurd hs hne
  | cons p ps => simp

/-- The loop raises when a selected value does not convert to text. -/
theorem renderResult_of_unprintable (data : JSValue) (t : String) (h : data.isNullish = false)
    (e : JSError) (hl : fieldLines (selectedPairs (labelEntries t) (ownProps data)) = .error e) :
    renderResult data t = .error e := by
  simp only [renderResult, renderFields_of_not_nullish data h, hl]

theorem fieldLines_ok (ps : List (String × JSValue))
    (h : ∀ p ∈ ps, ∃ text, toStr p.2 = .ok text) : ∃ lines, fieldLines ps = .ok lines := by
  induction ps with
  | nil => exact ⟨_, rfl⟩
  | cons p ps ih =>
    obtain ⟨text, ht⟩ := h p (List.mem_cons_self _ _)
    obtain ⟨more, hm⟩ := ih (fun q hq => h q (List.mem_cons_of_mem _ hq))
    simp only [fieldLines, ht, hm]
    exact ⟨_, rfl⟩

theorem joinItems_ok (items : List JSValue)
    (h : ∀ x ∈ items, ∃ text, toStr x = .ok text) : ∃ text, joinItems items = .ok text := by
  induction items with
  | nil => exact ⟨"", by simp [joinItems]⟩
  | cons x rest ih =>
    obtain ⟨tx, hx⟩ := h x (List.mem_cons_self _ _)
    obtain ⟨more, hm⟩ := ih (fun q hq => h q (List.mem_cons_of_mem _ hq))
    rw [joinItems, hx, hm]
    by_cases hn : x.isNullish = true <;> cases rest <;> simp only [hn, if_true, if_false] <;>
      exact ⟨_, rfl⟩

theorem renderResult_fallback (data : JSValue) (t : String) (st : Rendering)
    (h : renderResult data t = .ok st) (hd : st.hasData = false) :
    ∃ text, fallbackText data = .ok text ∧ st.html = resultHeader ++ text := by
  by_cases hn : data.isNullish = false
  · cases hs : selectedPairs (labelEntries t) (ownProps data) with
    | nil =>
      obtain ⟨text, ht, hr⟩ := renderResult_of_no_match data t hn hs
      rw [hr] at h
      cases h
      exact ⟨text, ht, rfl⟩
    | cons p ps =>
      exfalso
      cases hl : fieldLines (selectedPairs (labelEntries t) (ownProps data)) with
      | error e =>
        rw [renderResult_of_unprintable data t hn e hl] at h
        cases h
      | ok lines =>
        rw [renderResult_of_match data t hn lines (by simp [hs]) hl] at h
        cases h
        simp at hd
  · obtain ⟨text, ht⟩ := fallbackText_ok data
    refine ⟨text, ht, ?_⟩
    cases hl : labelEntries t with
    | nil =>
      simp only [renderResult, hl, renderFields, ht] at h
      simp at h
      cases h
      rfl
    | cons e rest =>
      obtain ⟨key, label⟩ := e
      cases data <;> simp [JSValue.isNullish] at hn <;>
        simp [renderResult, hl, renderFields, getProp] at h

/-- C1, the claim refuted: in the result `{"name": {"toString": 1}}` the key `name` of
the `phone` schema has a value that is neither `undefined` nor `null`, so the
claim has the pair (`Name`, that value) emitted with `hasData` true; the
template literal cannot convert the value to text and `displayResult` raises,
showing nothing. -/
theorem shadowed_toString_raises :
    selectedPairs [("name", "Name"), ("operator", "Operator"), ("circle", "Circle")]
        [("name", .obj [("toString", .num (.nonzero "1"))])] =
      [("Name", .obj [("toString", .num (.nonzero "1"))])] ∧
    renderResult (.obj [("name", .obj [("toString", .num (.nonzero "1"))])]) "phone" =
      .error notPrimitive ∧
    displayResult (freshPage "phone" "9876543210")
        (.obj [("name", .obj [("toString", .num (.nonzero "1"))])]) "phone" =
      .error notPrimitive :=
  ⟨rfl, rfl, rfl⟩

/-- C1, amended. For a type with a schema and a result object whose values selected
by the schema all convert to text, the pairs `displayResult` emits are the
entries of the schema whose key has a value in the result that is neither
`undefined` nor `null`, with that value, in schema order, and `hasData` holds
iff there is such a pair (the page then shows the header and the lines of the
pairs).  All seven registered types have a schema.  Every boolean, number and
string converts to text, so does an object without an own `toString` property,
and an array of values that do.  `false`, `0` and the empty string are kept;
the empty object gives no pair and `hasData = false` for every type; the
`pincode` result with a `null` district gives the two pairs `Post Office` and
`State`; and a result without own properties (an array, a string, a number, a
boolean) gives no pair. -/
theorem displayResult_pairs :
    (∀ (t : String) (labels : List (String × String)) (props : List (String × JSValue)),
      fieldLabels.lookup t = some labels →
      (∀ p ∈ selectedPairs labels props, ∃ text, toStr p.2 = .ok text) →
      ∃ st, renderResult (.obj props) t = .ok st ∧
        st.pairs = selectedPairs labels props ∧
        (st.hasData = true ↔ st.pairs ≠ []) ∧
        (st.hasData = true → ∃ lines, fieldLines st.pairs = .ok lines ∧
          ∀ dom, displayResult dom (.obj props) t =
            .ok (showResult dom (resultHeader ++ lines) "success"))) ∧
    (∀ t ∈ registeredTypes, (fieldLabels.lookup t).isSome = true) ∧
    (∀ b : Bool, toStr (.bool b) = .ok (if b then "true" else "false")) ∧
    (∀ n : JSNumber, toStr (.num n) = .ok n.text) ∧
    (∀ s : String, toStr (.str s) = .ok s) ∧
    (∀ props : List (String × JSValue), props.lookup "toString" = none →
      toStr (.obj props) = .ok "[object Object]") ∧
    (∀ items : List JSValue, (∀ x ∈ items, ∃ text, toStr x = .ok text) →
      ∃ text, toStr (.arr items) = .ok text) ∧
    (∃ st, renderResult (.obj [("name", .bool false), ("operator", .num (.zero false)),
        ("circle", .str "")]) "phone" = .ok st ∧
      st.pairs = [("Name", .bool false), ("Operator", .num (.zero false)),
        ("Circle", .str "")] ∧
      st.hasData = true) ∧
    (∀ t : String, ∃ st, renderResult (.obj []) t = .ok st ∧ st.pairs = [] ∧
      st.hasData = false) ∧
    (∃ st, renderResult (.obj [("post_office", .str "X"), ("district", .null),
        ("state", .str "Y")]) "pincode" = .ok st ∧
      st.pairs = [("Post Office", .str "X"), ("State", .str "Y")] ∧
      st.hasData = true) ∧
    (∀ (t : String) (r : JSValue), r.isNullish = false → ownProps r = [] →
      ∃ st, renderResult r t = .ok st ∧ st.pairs = [] ∧ st.hasData = false) := by
  refine ⟨?_, by decide, ?_, ?_, ?_, ?_, ?_, ⟨_, rfl, rfl, rfl⟩, ?_, ⟨_, rfl, rfl, rfl⟩, ?_⟩
  · intro t labels props h hconv
    have hle := labelEntries_of_lookup t labels h
    obtain ⟨lines, hl⟩ := fieldLines_ok _ hconv
    cases hs : selectedPairs labels props with
    | nil =>
      have hs2 : selectedPairs (labelEntries t) (ownProps (.obj props)) = [] := by
        rw [hle]; exact hs
      obtain ⟨text, _, hr⟩ := renderResult_of_no_match (.obj props) t rfl hs2
      exact ⟨_, hr, rfl, by simp, by simp⟩
    | cons p ps =>
      have hne : selectedPairs (labelEntries t) (ownProps (.obj props)) ≠ [] := by
        rw [hle]; simp [ownProps, hs]
      have hl2 : fieldLines (selectedPairs (labelEntries t) (ownProps (.obj props))) =
          .ok lines := by
        rw [hle]; exact hl
      have hr := renderResult_of_match (.obj props) t rfl lines hne hl2
      rw [hle] at hr
      simp only [ownProps] at hr
      refine ⟨_, hr, hs.symm ▸ rfl, by simp [hs], ?_⟩
      intro _
      refine ⟨lines, hl, ?_⟩
      intro dom
      simp [displayResult, hr]
  · intro b
    simp [toStr]
  · intro n
    simp [toStr]
  · intro s
    simp [toStr]
  · intro props h
    simp [toStr, h]
  · intro items h
    simpa [toStr] using joinItems_ok items h
  · intro t
    have hs : selectedPairs (labelEntries t) (ownProps (.obj [])) = [] := by
      simp [selectedPairs, ownProps, List.lookup]
    obtain ⟨text, _, hr⟩ := renderResult_of_no_match (.obj []) t rfl hs
    exact ⟨_, hr, rfl, rfl⟩
  · intro t r hn ho
    have hs : selectedPairs (labelEntries t) (ownProps r) = [] := by
      simp [selectedPairs, ho, List.lookup]
    obtain ⟨text, _, hr⟩ := renderResult_of_no_match r t hn hs
    exact ⟨_, hr, rfl, rfl⟩

/-- C1 amended, at the `pincode` schema and the result with a `null` district. -/
theorem displayResult_pairs_pincode :
    fieldLabels.lookup "pincode" =
        some [("post_office", "Post Office"), ("district", "District"), ("state", "State")] ∧
      ∃ st, renderResult (.obj [("post_office", .str "X"), ("district", .null),
          ("state", .str "Y")]) "pincode" = .ok st ∧
        st.pairs = selectedPairs
          [("post_office", "Post Office"), ("district", "District"), ("state", "State")]
          [("post_office", .str "X"), ("district", .null), ("state", .str "Y")] ∧
        (st.hasData = true ↔ st.pairs ≠ []) ∧
        (st.hasData = true → ∃ lines, fieldLines st.pairs = .ok lines ∧
          ∀ dom, displayResult dom (.obj [("post_office", .str "X"), ("district", .null),
              ("state", .str "Y")]) "pincode" =
            .ok (showResult dom (resultHeader ++ lines) "success")) :=
  ⟨rfl, displayResult_pairs.1 "pincode" _ _ rfl (by
    intro p hp
    have hsel : selectedPairs
        [("post_office", "Post Office"), ("district", "District"), ("state", "State")]
        [("post_office", .str "X"), ("district", .null), ("state", .str "Y")] =
        [("Post Office", .str "X"), ("State", .str "Y")] := rfl
    rw [hsel] at hp
    simp only [List.mem_cons, List.mem_nil_iff, or_false] at hp
    rcases hp with rfl | rfl <;> exact ⟨_, rfl⟩)⟩

/-- C2, at the failing input: for each registered type `displayResult(null, type)`
raises the `TypeError` of reading the first schema key of `null`, before the
fallback that tests for `null` is reached; the submit handler then reports the
lookup whose body is `null` as a failed fetch. -/
theorem displayResult_null_raises (dom : Dom) :
    displayResult dom .null "phone" =
      .error ⟨"TypeError", "Cannot read properties of null (reading 'name')"⟩ ∧
    displayResult dom .null "aadhaar" =
      .error ⟨"TypeError", "Cannot read properties of null (reading 'name')"⟩ ∧
    displayResult dom .null "gst" =
      .error ⟨"TypeError", "Cannot read properties of null (reading 'legal_name')"⟩ ∧
    displayResult dom .null "upi" =
      .error ⟨"TypeError", "Cannot read properties of null (reading 'name')"⟩ ∧
    displayResult dom .null "ifsc" =
      .error ⟨"TypeError", "Cannot read properties of null (reading 'bank')"⟩ ∧
    displayResult dom .null "pincode" =
      .error ⟨"TypeError", "Cannot read properties of null (reading 'post_office')"⟩ ∧
    displayResult dom .null "vehicle" =
      .error ⟨"TypeError", "Cannot read properties of null (reading 'owner')"⟩ ∧
    (onSubmit (fun _ => .resolved ⟨true, 200, .ok .null⟩)
        (freshPage "phone" "9876543210")).dom.resultBox_innerHTML =
      "Failed to fetch data. Try again later." :=
  ⟨rfl, rfl, rfl, rfl, rfl, rfl, rfl, by decide⟩

/-- C8, the claim refuted: for the primitive result `"hello"` no schema field
matches, and the text after the header is `hello`, not `No data found.`. -/
theorem primitive_result_echoed :
    ∃ st, renderResult (.str "hello") "phone" = .ok st ∧ st.hasData = false ∧
      st.html = resultHeader ++ "hello" ∧ st.html ≠ resultHeader ++ "No data found." :=
  ⟨_, rfl, rfl, rfl, by decide⟩

/-- C8, amended. Whenever `displayResult` completes with no schema field matched,
the page shows the header followed by the fallback text, and it does complete
so for every result other than `null` and `undefined` in which no schema field
matches.  The fallback text is: the `JSON.stringify(r, null, 2)` dump when `r`
is an array or an object; `r` itself as text when `r` is a truthy primitive (a
non-empty string, a number other than `0`, `-0` and `NaN`, `true`); and
`No data found.` when `r` is a falsy primitive (the empty string, `0`, `-0`,
`NaN`, `false`), `null` or `undefined`. -/
theorem fallback_text :
    (∀ (dom : Dom) (t : String) (r : JSValue) (st : Rendering),
      renderResult r t = .ok st → st.hasData = false →
        ∃ text, fallbackText r = .ok text ∧ st.html = resultHeader ++ text ∧
          displayResult dom r t = .ok (showResult dom (resultHeader ++ text) "success")) ∧
    (∀ (t : String) (r : JSValue), r.isNullish = false →
      selectedPairs (labelEntries t) (ownProps r) = [] →
        ∃ st, renderResult r t = .ok st ∧ st.hasData = false) ∧
    (∀ items, ∃ dump, JSON_stringify (.arr items) = some dump ∧
      fallbackText (.arr items) = .ok dump) ∧
    (∀ props, ∃ dump, JSON_stringify (.obj props) = some dump ∧
      fallbackText (.obj props) = .ok dump) ∧
    (∀ s, fallbackText (.str s) = .ok (if s = "" then "No data found." else s)) ∧
    (∀ negative, fallbackText (.num (.zero negative)) = .ok "No data found.") ∧
    fallbackText (.num .nan) = .ok "No data found." ∧
    (∀ text, fallbackText (.num (.nonzero text)) = .ok text) ∧
    (∀ negative, fallbackText (.num (.infinity negative)) =
      .ok (if negative = true then "-Infinity" else "Infinity")) ∧
    fallbackText (.bool true) = .ok "true" ∧
    fallbackText (.bool false) = .ok "No data found." ∧
    fallbackText .null = .ok "No data found." ∧
    fallbackText .undefined = .ok "No data found." := by
  refine ⟨?_, ?_, ?_, ?_, ?_, ?_, rfl, ?_, ?_, rfl, rfl, rfl, rfl⟩
  · intro dom t r st h hd
    obtain ⟨text, ht, hh⟩ := renderResult_fallback r t st h hd
    refine ⟨text, ht, hh, ?_⟩
    simp [displayResult, h, hh]
  · intro t r hn hs
    obtain ⟨text, _, hr⟩ := renderResult_of_no_match r t hn hs
    exact ⟨_, hr, rfl⟩
  · intro items
    exact ⟨_, rfl, by simp [fallbackText, JSValue.truthy, JSValue.typeofObject, JSON_stringify, serialize]⟩
  · intro props
    exact ⟨_, rfl, by simp [fallbackText, JSValue.truthy, JSValue.typeofObject, JSON_stringify, serialize]⟩
  · intro s
    by_cases h : s = "" <;> simp [fallbackText, JSValue.truthy, JSValue.typeofObject, toStr, h]
  · intro negative
    rfl
  · intro text
    rfl
  · intro negative
    rfl

/-- C8 amended, at the empty object under the `phone` schema: the text after the
header is the dump of the object. -/
theorem fallback_text_empty_object :
    fallbackText (.obj []) = .ok "\x7b\x7d" ∧
      ∃ text, fallbackText (.obj []) = .ok text ∧
        (⟨resultHeader ++ "\x7b\x7d", false, []⟩ : Rendering).html = resultHeader ++ text ∧
        displayResult (freshPage "phone" "9876543210") (.obj []) "phone" =
          .ok (showResult (freshPage "phone" "9876543210") (resultHeader ++ text) "success") :=
  ⟨rfl,
    fallback_text.1 (freshPage "phone" "9876543210") "phone" (.obj [])
      ⟨resultHeader ++ "\x7b\x7d", false, []⟩ rfl rfl⟩

/-! ## The submit handler -/

theorem digitChar_isDigit (m : Nat) (h : m < 10) : (Nat.digitChar m).isDigit = true := by
  interval_cases m <;> rfl

theorem toDigitsCore_isDigit :
    ∀ (fuel n : Nat) (ds : List Char), (∀ c ∈ ds, c.isDigit = true) →
      ∀ c ∈ Nat.toDigitsCore 10 fuel n ds, c.isDigit = true := by
  intro fuel
  induction fuel with
  | zero =>
    intro n ds hds c hc
    simp [Nat.toDigitsCore] at hc
    exact hds c hc
  | succ fuel ih =>
    intro n ds hds c hc
    have hd : ∀ x ∈ Nat.digitChar (n % 10) :: ds, x.isDigit = true := by
      intro x hx
      rcases List.mem_cons.mp hx with rfl | hx
      · exact digitChar_isDigit _ (Nat.mod_lt _ (by decide))
      · exact hds x hx
    simp only [Nat.toDigitsCore] at hc
    split at hc
    · exact hd c hc
    · exact ih _ _ hd c hc

theorem toString_nat_isDigit (n : Nat) : ∀ c ∈ (toString n).toList, c.isDigit = true := by
  intro c hc
  have h : (toString n).toList = Nat.toDigits 10 n := rfl
  rw [h] at hc
  exact toDigitsCore_isDigit _ _ [] (by simp) c hc

theorem includes_head (s : String) (a : Char) (rest : List Char) (sub : String)
    (hsub : sub.toList = a :: rest) (h : includes s sub = true) : a ∈ s.toList := by
  simp only [includes, List.any_eq_true, hsub] at h
  obtain ⟨t, ht, hp⟩ := h
  have hsuf : t <:+ s.toList := (List.mem_tails _ _).mp ht
  cases t with
  | nil => simp [List.isPrefixOf] at hp
  | cons b t =>
    simp [List.isPrefixOf] at hp
    obtain ⟨rfl, _⟩ := hp
    exact hsuf.subset (List.mem_cons_self _ _)

theorem serverError_not_network (n : Nat) :
    includes ("Server Error: " ++ toString n) "Failed to fetch" = false := by
  cases h : includes ("Server Error: " ++ toString n) "Failed to fetch" with
  | false => rfl
  | true =>
    exfalso
    have hm := includes_head _ 'F' "ailed to fetch".toList _ rfl h
    simp only [String.toList, String.data_append, List.mem_append] at hm
    rcases hm with hm | hm
    · exact absurd hm (by decide)
    · exact absurd (toString_nat_isDigit n _ hm) (by decide)

theorem patterns_reject_empty : ∀ p ∈ patterns, RegExp.test p.2 "" = false := by
  decide

theorem validateInput_true_nonempty (type value : String)
    (h : validateInput type value = .ok true) : type ≠ "" ∧ value ≠ "" := by
  constructor
  · rintro rfl
    have h0 : validateInput "" value = .ok false := rfl
    rw [h0] at h
    cases h
  · rintro rfl
    cases hl : patterns.lookup type with
    | none =>
      by_cases hk : type ∈ objectPrototypeKeys <;>
        simp [validateInput, getMember, hl, hk] at h
    | some re =>
      have hm := patterns_reject_empty _ (lookup_mem type re patterns hl)
      simp [validateInput, getMember, hl] at h
      simp [h] at hm

theorem onSubmit_of_valid (net : String → FetchOutcome) (dom : Dom)
    (h : validateInput dom.typeSelect_value (trim dom.inputValue_value) = .ok true) :
    onSubmit net dom =
      match tryBlock (hideResult (showLoading dom true)) dom.typeSelect_value
          (net (buildUrl dom.typeSelect_value (trim dom.inputValue_value))) with
      | .ok dom2 =>
        ⟨showLoading dom2 false,
          [.preventDefault, .fetch (buildUrl dom.typeSelect_value (trim dom.inputValue_value))],
          .ok ()⟩
      | .error e =>
        ⟨showLoading (showResult (hideResult (showLoading dom true)) (failureMessage e) "error")
            false,
          [.preventDefault, .fetch (buildUrl dom.typeSelect_value (trim dom.inputValue_value)),
            .consoleError e],
          .ok ()⟩ := by
  obtain ⟨h1, h2⟩ := validateInput_true_nonempty _ _ h
  simp only [onSubmit, h1, h2, or_self, if_false, h]

theorem onSubmit_trace_no_fetch (net : String → FetchOutcome) (dom : Dom)
    (h : validateInput dom.typeSelect_value (trim dom.inputValue_value) ≠ .ok true) :
    (onSubmit net dom).trace = [.preventDefault] ∧
      (onSubmit net dom).dom.loading_display = dom.loading_display ∧
      (onSubmit net dom).dom.submitBtn_disabled = dom.submitBtn_disabled ∧
      (onSubmit net dom).dom.submitBtn_textContent = dom.submitBtn_textContent := by
  unfold onSubmit
  simp only
  split
  · exact ⟨rfl, rfl, rfl, rfl⟩
  · split
    · exact ⟨rfl, rfl, rfl, rfl⟩
    · exact ⟨rfl, rfl, rfl, rfl⟩
    · rename_i h'
      exact absurd h' h

/-- C9, the claim refuted: with `phone` selected and a blank input the trimmed value
fails validation, yet the handler returns with the page as it was: the message
`Invalid input format!` is not shown. -/
theorem blank_input_reports_nothing :
    validateInput (freshPage "phone" "   ").typeSelect_value
        (trim (freshPage "phone" "   ").inputValue_value) = .ok false ∧
      (onSubmit (fun _ => .rejected ⟨"TypeError", "Failed to fetch"⟩)
        (freshPage "phone" "   ")).dom = freshPage "phone" "   " ∧
      (onSubmit (fun _ => .rejected ⟨"TypeError", "Failed to fetch"⟩)
        (freshPage "phone" "   ")).dom.resultBox_innerHTML ≠ "Invalid input format!" :=
  ⟨rfl, by decide, by decide⟩

/-- C9, amended. In every run of the submit handler: a fetch is in the trace only
if `validateInput` returned `true` for the selected type and the trimmed input,
and it is the fetch of `buildUrl` of these; if `validateInput` does not return
`true` the trace has no fetch and the loading state is as before; if the type
and the trimmed input are both non-empty and `validateInput` returns `false`,
the handler ends with `Invalid input format!` shown as an error; if the type or
the trimmed input is empty, the handler returns with the page unchanged. -/
theorem onSubmit_validates_before_fetch (net : String → FetchOutcome) (dom : Dom) :
    (∀ url, Effect.fetch url ∈ (onSubmit net dom).trace →
      validateInput dom.typeSelect_value (trim dom.inputValue_value) = .ok true ∧
        url = buildUrl dom.typeSelect_value (trim dom.inputValue_value)) ∧
    (validateInput dom.typeSelect_value (trim dom.inputValue_value) ≠ .ok true →
      (onSubmit net dom).trace = [.preventDefault] ∧
        (onSubmit net dom).dom.loading_display = dom.loading_display ∧
        (onSubmit net dom).dom.submitBtn_disabled = dom.submitBtn_disabled ∧
        (onSubmit net dom).dom.submitBtn_textContent = dom.submitBtn_textContent) ∧
    (dom.typeSelect_value ≠ "" → trim dom.inputValue_value ≠ "" →
      validateInput dom.typeSelect_value (trim dom.inputValue_value) = .ok false →
        (onSubmit net dom).dom = showResult dom "Invalid input format!" "error" ∧
        (onSubmit net dom).completion = .ok ()) ∧
    ((dom.typeSelect_value = "" ∨ trim dom.inputValue_value = "") →
      (onSubmit net dom).dom = dom ∧ (onSubmit net dom).completion = .ok ()) := by
  refine ⟨?_, onSubmit_trace_no_fetch net dom, ?_, ?_⟩
  · intro url hmem
    by_cases h : validateInput dom.typeSelect_value (trim dom.inputValue_value) = .ok true
    · refine ⟨h, ?_⟩
      rw [onSubmit_of_valid net dom h] at hmem
      split at hmem <;> simpa using hmem
    · rw [(onSubmit_trace_no_fetch net dom h).1] at hmem
      simp at hmem
  · intro h1 h2 h
    simp [onSubmit, h1, h2, h]
  · intro h
    simp [onSubmit, h]

/-- C9 amended, at `phone` with the five digits `12345`. -/
theorem onSubmit_rejects_short_phone :
    (onSubmit (fun _ => .rejected ⟨"TypeError", "Failed to fetch"⟩)
        (freshPage "phone" " 12345 ")).dom =
      showResult (freshPage "phone" " 12345 ") "Invalid input format!" "error" ∧
    (onSubmit (fun _ => .rejected ⟨"TypeError", "Failed to fetch"⟩)
        (freshPage "phone" " 12345 ")).completion = .ok () :=
  (onSubmit_validates_before_fetch (fun _ => .rejected ⟨"TypeError", "Failed to fetch"⟩)
    (freshPage "phone" " 12345 ")).2.2.1 (by decide) (by decide) rfl

/-- C10. The `catch` block reports an error named `AbortError` with the timeout
message, another error whose message contains `Failed to fetch` with the network
message, and any other error, the `Server Error: <status>` of a non-2xx answer
included, with the generic message; the three messages differ pairwise, and an
`AbortError` is never reported with the network message.  Every error the `try`
block ends with is reported so on the page: a rejected fetch ends with its own
error, and an answer that is not `ok` with `Server Error: <status>`. -/
theorem failure_reporting :
    (∀ e : JSError, e.name = "AbortError" →
      failureMessage e = "Request timed out. Please try again.") ∧
    (∀ e : JSError, e.name ≠ "AbortError" → includes e.message "Failed to fetch" = true →
      failureMessage e = "Network error. Check your internet connection.") ∧
    (∀ e : JSError, e.name ≠ "AbortError" → includes e.message "Failed to fetch" = false →
      failureMessage e = "Failed to fetch data. Try again later.") ∧
    (∀ status : Nat, failureMessage ⟨"Error", "Server Error: " ++ toString status⟩ =
      "Failed to fetch data. Try again later.") ∧
    ("Request timed out. Please try again." ≠ "Network error. Check your internet connection." ∧
      "Request timed out. Please try again." ≠ "Failed to fetch data. Try again later." ∧
      "Network error. Check your internet connection." ≠
        "Failed to fetch data. Try again later.") ∧
    (∀ e : JSError, e.name = "AbortError" →
      failureMessage e ≠ "Network error. Check your internet connection.") ∧
    (∀ (net : String → FetchOutcome) (dom : Dom) (e : JSError),
      validateInput dom.typeSelect_value (trim dom.inputValue_value) = .ok true →
      tryBlock (hideResult (showLoading dom true)) dom.typeSelect_value
        (net (buildUrl dom.typeSelect_value (trim dom.inputValue_value))) = .error e →
      (onSubmit net dom).dom =
          showLoading (showResult (hideResult (showLoading dom true)) (failureMessage e) "error")
            false ∧
        (onSubmit net dom).completion = .ok ()) ∧
    (∀ (dom : Dom) (type : String) (e : JSError), tryBlock dom type (.rejected e) = .error e) ∧
    (∀ (dom : Dom) (type : String) (status : Nat) (body : Except JSError JSValue),
      tryBlock dom type (.resolved ⟨false, status, body⟩) =
        .error ⟨"Error", "Server Error: " ++ toString status⟩) := by
  refine ⟨?_, ?_, ?_, ?_, by decide, ?_, ?_, ?_, ?_⟩
  · intro e h
    simp [failureMessage, h]
  · intro e h1 h2
    simp [failureMessage, h1, h2]
  · intro e h1 h2
    simp [failureMessage, h1, h2]
  · intro status
    have h1 : ¬ ("Error" = "AbortError") := by decide
    simp only [failureMessage, h1, if_false, serverError_not_network status]
    rfl
  · intro e h
    simp only [failureMessage, h, if_true]
    decide
  · intro net dom e h ht
    rw [onSubmit_of_valid net dom h, ht]
    exact ⟨rfl, rfl⟩
  · intro dom type e
    rfl
  · intro dom type status body
    rfl

/-- C10 at a timed-out lookup of a valid phone number. -/
theorem timeout_reported :
    (onSubmit (fun _ => .rejected ⟨"AbortError", "signal is aborted without reason"⟩)
        (freshPage "phone" "9876543210")).dom =
      showLoading (showResult (hideResult (showLoading (freshPage "phone" "9876543210") true))
        (failureMessage ⟨"AbortError", "signal is aborted without reason"⟩) "error") false ∧
    (onSubmit (fun _ => .rejected ⟨"AbortError", "signal is aborted without reason"⟩)
        (freshPage "phone" "9876543210")).completion = .ok () ∧
    failureMessage ⟨"AbortError", "signal is aborted without reason"⟩ =
      "Request timed out. Please try again." :=
  ⟨(failure_reporting.2.2.2.2.2.2.1
      (fun _ => .rejected ⟨"AbortError", "signal is aborted without reason"⟩)
      (freshPage "phone" "9876543210") ⟨"AbortError", "signal is aborted without reason"⟩
      rfl rfl).1,
    (failure_reporting.2.2.2.2.2.2.1
      (fun _ => .rejected ⟨"AbortError", "signal is aborted without reason"⟩)
      (freshPage "phone" "9876543210") ⟨"AbortError", "signal is aborted without reason"⟩
      rfl rfl).2,
    failure_reporting.1 _ rfl⟩

end AllInfo
